import Mathlib

/-!
Verification of the location/route resolution pipeline of `src/components/Map.tsx`,
a map-based travel assistant. JavaScript numbers are modelled as real numbers,
`Math.random()` as an externally supplied stream of values in `[0, 1)`, and the
HTTP collaborators (Overpass, Nominatim, OSRM, browser geolocation) as explicit
request outcomes passed to the handlers. The turf.js geometry helpers used by the
component (`length`, `along`, `destination`, `bearing`, `distance`) are embedded
from the turf sources; turf measures with its mean Earth radius of 6 371 008.8 m.
-/

namespace GeoGuide

open Real

/-- A latitude/longitude pair in degrees (the `[lat, lon]` arrays of the component). -/
structure Coord where
  lat : ℝ
  lon : ℝ

/-- A GeoJSON position: `[lon, lat]`, the order used by turf and OSRM geometry. -/
abbrev Pt := ℝ × ℝ

/-- JavaScript `Math.atan2 y x`. -/
noncomputable def atan2 (y x : ℝ) : ℝ :=
  if 0 < x then Real.arctan (y / x)
  else if x < 0 then
    (if 0 ≤ y then Real.arctan (y / x) + π else Real.arctan (y / x) - π)
  else
    (if 0 < y then π / 2 else if y < 0 then -(π / 2) else 0)

/-- The function `calculateDistance` from Map.tsx: Haversine distance in km, Earth radius 6371 km. -/
noncomputable def calculateDistance (lat1 lon1 lat2 lon2 : ℝ) : ℝ :=
  let R : ℝ := 6371
  let dLat := (lat2 - lat1) * π / 180
  let dLon := (lon2 - lon1) * π / 180
  let a := Real.sin (dLat / 2) * Real.sin (dLat / 2) +
    Real.cos (lat1 * π / 180) * Real.cos (lat2 * π / 180) *
    Real.sin (dLon / 2) * Real.sin (dLon / 2)
  let c := 2 * atan2 (Real.sqrt a) (Real.sqrt (1 - a))
  R * c

/-- turf's mean Earth radius, in kilometers (6 371 008.8 m). -/
def turfEarthRadiusKm : ℝ := 6371.0088

/-- turf.distance on two GeoJSON positions: Haversine with turf's Earth radius. -/
noncomputable def turfDistance (p q : Pt) : ℝ :=
  let dLat := (q.2 - p.2) * π / 180
  let dLon := (q.1 - p.1) * π / 180
  let lat1 := p.2 * π / 180
  let lat2 := q.2 * π / 180
  let a := Real.sin (dLat / 2) ^ 2 +
    Real.sin (dLon / 2) ^ 2 * Real.cos lat1 * Real.cos lat2
  (2 * atan2 (Real.sqrt a) (Real.sqrt (1 - a))) * turfEarthRadiusKm

/-- turf.length of a line string: sum of the Haversine lengths of its segments. -/
noncomputable def turfLengthList : List Pt → ℝ
  | a :: b :: rest => turfDistance a b + turfLengthList (b :: rest)
  | _ => 0

/-- turf.bearing from one position to another, in degrees. -/
noncomputable def turfBearing (p q : Pt) : ℝ :=
  let lon1 := p.1 * π / 180
  let lon2 := q.1 * π / 180
  let lat1 := p.2 * π / 180
  let lat2 := q.2 * π / 180
  let a := Real.sin (lon2 - lon1) * Real.cos lat2
  let b := Real.cos lat1 * Real.sin lat2 -
    Real.sin lat1 * Real.cos lat2 * Real.cos (lon2 - lon1)
  atan2 a b * 180 / π

/-- turf.destination: geodesic destination-point projection from `origin`,
`dist` kilometers along the given bearing (degrees). -/
noncomputable def turfDestination (origin : Pt) (dist bearing : ℝ) : Pt :=
  let lon1 := origin.1 * π / 180
  let lat1 := origin.2 * π / 180
  let bearingRad := bearing * π / 180
  let radians := dist / turfEarthRadiusKm
  let lat2 := Real.arcsin (Real.sin lat1 * Real.cos radians +
    Real.cos lat1 * Real.sin radians * Real.cos bearingRad)
  let lon2 := lon1 + atan2 (Real.sin bearingRad * Real.sin radians * Real.cos lat1)
    (Real.cos radians - Real.sin lat1 * Real.sin lat2)
  (lon2 * 180 / π, lat2 * 180 / π)

/-- turf.along specialised to the two-point lines built by `simulateRoute`:
returns the exact start for distance 0, the exact end once the distance reaches
the segment length, and otherwise back-projects from the end point. A negative
distance would read before the line start and produce NaN in turf; it is
modelled as the start point and is unreachable from `simulateRoute`, whose
sampled distances are nonnegative. -/
noncomputable def turfAlongTwo (A B : Pt) (dist : ℝ) : Pt :=
  let L := turfDistance A B
  if dist = 0 then A
  else if dist < 0 then A
  else if L ≤ dist then B
  else turfDestination B (dist - L) (turfBearing B A - 180)

/-- JavaScript string truthiness: `undefined` and the empty string are falsy. -/
def truthy : Option String → Bool
  | none => false
  | some s => !(s == "")

/-- JavaScript `a || b` on strings (with `a` already defaulted to `""`). -/
def jsOr (a b : String) : String :=
  if a = "" then b else a

/-- JavaScript `x || d` where `x` is an optional string field. -/
def jsOrStr (x : Option String) (d : String) : String :=
  match x with
  | none => d
  | some s => if s = "" then d else s

/-- JavaScript `x || d` where `x` is an optional numeric field: `0` is falsy. -/
noncomputable def numOr (x : Option ℝ) (d : ℝ) : ℝ :=
  match x with
  | none => d
  | some v => if v = 0 then d else v

/-- The ternary `tag ? tag.charAt(0).toUpperCase() + tag.slice(1) : ''` used for
name fallbacks in the Overpass transform. -/
def capTag : Option String → String
  | none => ""
  | some s => if s = "" then "" else s.capitalize

/-- JavaScript `s.split(',')[0]`: the first comma-delimited segment of a display name. -/
def firstSegment (s : String) : String :=
  (s.splitOn ",").headD ""

/-- JavaScript `opts[Math.floor(r * 3)]`, the random pick from a three-element list. -/
noncomputable def pick3 (opts : List String) (r : ℝ) : String :=
  opts.getD (⌊r * 3⌋).toNat ""

/-- JavaScript `x.toFixed(1)` modelled as rounding to one decimal place. -/
noncomputable def roundTo1 (x : ℝ) : ℝ :=
  (round (x * 10) : ℝ) / 10

def crowdOptions : List String := ["Less crowded", "Moderate", "Busy"]

def timeOptions : List String := ["Morning", "Afternoon", "Evening"]

def placeImage : String :=
  "https://images.unsplash.com/photo-1564507592333-c60657eea523?auto=format&fit=crop&q=80&w=300"

/-- The OSM tags consulted by the Overpass transform. -/
structure OsmTags where
  name : Option String := none
  tourism : Option String := none
  historic : Option String := none
  amenity : Option String := none
  leisure : Option String := none

/-- An element of an Overpass response: point features carry `lat`/`lon`,
way features carry a `center`, bare skeleton nodes carry no tags. -/
structure OsmElement where
  id : ℕ
  tags : Option OsmTags
  lat : Option ℝ := none
  lon : Option ℝ := none
  center : Option Coord := none

/-- A Nominatim search record; `lat`/`lon` are modelled as the numeric values
of the textual fields the code feeds through `parseFloat`. -/
structure NominatimRecord where
  place_id : ℕ
  display_name : String
  lat : ℝ
  lon : ℝ
  type : Option String := none

/-- A point of interest as assembled for the recommendation panel. -/
structure Place where
  id : String
  name : String
  description : String
  image : String
  rating : ℝ
  crowdLevel : String
  bestTime : String
  category : String
  location : Coord
  distance : ℝ

/-- Ordering of places by their distance-from-origin field. -/
def Place.leDist (a b : Place) : Prop :=
  a.distance ≤ b.distance

noncomputable instance : DecidableRel Place.leDist :=
  fun a b => inferInstanceAs (Decidable (a.distance ≤ b.distance))

instance : IsTotal Place Place.leDist :=
  ⟨fun a b => le_total a.distance b.distance⟩

instance : IsTrans Place Place.leDist :=
  ⟨fun _ _ _ h1 h2 => le_trans h1 h2⟩

/-- JavaScript `places.sort((a, b) => a.distance - b.distance)`, modelled as a stable sort
by the distance key. -/
noncomputable def sortByDistance (places : List Place) : List Place :=
  places.insertionSort Place.leDist

/-- JavaScript `.map((element, index) => ...)` with the element index threaded through. -/
def mapWithIndex (f : ℕ → α → β) : ℕ → List α → List β
  | _, [] => []
  | i, a :: l => f i a :: mapWithIndex f (i + 1) l

/-- The retention filter of the Overpass transform: the element must have a tags
object with a truthy `name`, `tourism`, `historic`, or `amenity` entry.
(`leisure` is never consulted, so unnamed park features are dropped.) -/
def keepElement (e : OsmElement) : Bool :=
  match e.tags with
  | none => false
  | some t => truthy t.name || truthy t.tourism || truthy t.historic || truthy t.amenity

/-- The per-element Overpass transform (the `.map` body of `fetchNearbyPlaces`).
The filter guarantees a tags object, so the `getD` default is unreachable.
Each element draws three `Math.random()` values, indexed `3*i`, `3*i+1`, `3*i+2`. -/
noncomputable def overpassPlace (lat lon : ℝ) (rand : ℕ → ℝ) (i : ℕ) (e : OsmElement) : Place :=
  let t := e.tags.getD {}
  let name := jsOr (t.name.getD "") (jsOr (capTag t.tourism)
    (jsOr (capTag t.historic) (jsOr (capTag t.amenity) ("Place " ++ toString (i + 1)))))
  let category := jsOr (t.tourism.getD "") (jsOr (t.historic.getD "")
    (jsOr (t.amenity.getD "") "Point of Interest"))
  let latc := numOr e.lat (match e.center with | some c => c.lat | none => lat)
  let lonc := numOr e.lon (match e.center with | some c => c.lon | none => lon)
  { id := toString e.id,
    name := name,
    description := category.capitalize,
    image := placeImage,
    rating := roundTo1 (rand (3 * i) * 2 + 3),
    crowdLevel := pick3 crowdOptions (rand (3 * i + 1)),
    bestTime := pick3 timeOptions (rand (3 * i + 2)),
    category := category.capitalize,
    location := ⟨latc, lonc⟩,
    distance := calculateDistance lat lon latc lonc }

/-- Tier 1 processing of a nonempty Overpass element list: filter, cap at 10,
transform, sort ascending by distance. -/
noncomputable def processOverpass (lat lon : ℝ) (elems : List OsmElement) (rand : ℕ → ℝ) :
    List Place :=
  sortByDistance (mapWithIndex (overpassPlace lat lon rand) 0 ((elems.filter keepElement).take 10))

/-- The per-record Nominatim transform (the `.map` body of `fallbackToNominatim`).
Each record draws four `Math.random()` values, indexed `4*i` … `4*i+3`. -/
noncomputable def nominatimPlace (lat lon : ℝ) (rand : ℕ → ℝ) (i : ℕ) (rec : NominatimRecord) :
    Place :=
  { id := toString rec.place_id,
    name := firstSegment rec.display_name,
    description := jsOrStr rec.type "Tourist Attraction",
    image := placeImage,
    rating := roundTo1 (rand (4 * i) * 2 + 3),
    crowdLevel := pick3 crowdOptions (rand (4 * i + 1)),
    bestTime := pick3 timeOptions (rand (4 * i + 2)),
    category := pick3 ["Historical", "Cultural", "Nature"] (rand (4 * i + 3)),
    location := ⟨rec.lat, rec.lon⟩,
    distance := calculateDistance lat lon rec.lat rec.lon }

/-- Tier 2 processing of a nonempty Nominatim record list: transform and sort
ascending by distance. -/
noncomputable def processNominatim (lat lon : ℝ) (recs : List NominatimRecord) (rand : ℕ → ℝ) :
    List Place :=
  sortByDistance (mapWithIndex (nominatimPlace lat lon rand) 0 recs)

def mockNames : List String :=
  ["Central Park", "Museum of Art", "Historic Tower", "Botanical Garden", "City Square"]

def mockDescriptions : List String :=
  ["Nature", "Cultural", "Historical", "Nature", "Entertainment"]

def mockCategories : List String :=
  ["Park", "Museum", "Monument", "Garden", "Plaza"]

/-- The function `createMockPlaces`: tier 3 synthesis of five places at random distances
(0.5–5 km) and bearings from the origin. Each iteration draws five
`Math.random()` values, indexed `5*i` … `5*i+4`, in source order:
distance, bearing, rating, crowd level, best time. -/
noncomputable def createMockPlaces (lat lon : ℝ) (rand : ℕ → ℝ) : List Place :=
  (List.range 5).map fun i =>
    let distance := 0.5 + rand (5 * i) * 4.5
    let bearing := rand (5 * i + 1) * 360
    let point := turfDestination (lon, lat) distance bearing
    { id := "mock-" ++ toString i,
      name := mockNames.getD i "",
      description := mockDescriptions.getD i "",
      image := placeImage,
      rating := roundTo1 (rand (5 * i + 2) * 2 + 3),
      crowdLevel := pick3 crowdOptions (rand (5 * i + 3)),
      bestTime := pick3 timeOptions (rand (5 * i + 4)),
      category := mockCategories.getD i "",
      location := ⟨point.2, point.1⟩,
      distance := distance }

/-- Outcome of an HTTP fetch: `failure` covers a thrown network error, a
non-success status code (the code throws on `!response.ok`), and an unparsable
body; `ok` carries the parsed payload. -/
inductive FetchOutcome (α : Type) where
  | failure
  | ok (body : α)

/-- The function `fallbackToNominatim`: tier 2, cascading to tier 3 on failure or an empty
record list. -/
noncomputable def fallbackToNominatim (lat lon : ℝ)
    (o2 : FetchOutcome (List NominatimRecord)) (rand : ℕ → ℝ) : List Place :=
  match o2 with
  | .failure => createMockPlaces lat lon rand
  | .ok recs =>
    if recs.length > 0 then processNominatim lat lon recs rand
    else createMockPlaces lat lon rand

/-- The function `fetchNearbyPlaces`: the three-tier discovery cascade. Tier 1 runs on a
nonempty Overpass element list; otherwise tier 2, then tier 3. -/
noncomputable def fetchNearbyPlaces (lat lon : ℝ)
    (o1 : FetchOutcome (List OsmElement)) (o2 : FetchOutcome (List NominatimRecord))
    (rand : ℕ → ℝ) : List Place :=
  match o1 with
  | .failure => fallbackToNominatim lat lon o2 rand
  | .ok elems =>
    if elems.length > 0 then processOverpass lat lon elems rand
    else fallbackToNominatim lat lon o2 rand

/-- A destination as stored in `selectedLocation`; `lat`/`lon` are modelled as
the numeric values of the textual Nominatim fields. -/
structure SelectedLocation where
  place_id : String
  display_name : String
  lat : ℝ
  lon : ℝ

structure RouteStep where
  instruction : String
  distance : ℤ

/-- A resolved route; `distance` is the km total as displayed after
`toFixed(1)`, modelled by `roundTo1`. -/
structure Route where
  coordinates : List Pt
  duration : ℤ
  distance : ℝ
  steps : List RouteStep

structure Achievement where
  title : String
  description : String
  points : ℤ

def routePlanner : Achievement :=
  { title := "Route Planner",
    description := "Successfully planned your first route!",
    points := 50 }

/-- The orchestrator state owned by the `Map` component. -/
structure MapState where
  position : Coord
  selectedLocation : Option SelectedLocation
  route : Option Route
  transportMode : String
  userLocation : Option Coord
  recommendations : List Place
  showRecommendations : Bool
  achievement : Option Achievement
  locationError : Option String
  isLoadingLocation : Bool

/-- The fixed fallback coordinate (San Francisco). -/
def defaultLocation : Coord := ⟨37.7749, -122.4194⟩

/-- Outcome of a geolocation acquisition attempt. -/
inductive GeoOutcome where
  | success (lat lon : ℝ)
  | failure (message : String)
  | unsupported

/-- The function `getUserLocation`: the completed acquisition flow for a given outcome.
The second component is the coordinate for which `fetchNearbyPlaces` is
triggered. `hasInitialPlace` models the `initialSelectedPlace` prop. -/
def getUserLocation (st : MapState) (hasInitialPlace : Bool) (outcome : GeoOutcome) :
    MapState × Option Coord :=
  let st0 := { st with isLoadingLocation := true, locationError := none }
  match outcome with
  | .success lat lon =>
    let c : Coord := ⟨lat, lon⟩
    let st1 := { st0 with userLocation := some c, isLoadingLocation := false }
    let st2 := if st.selectedLocation.isNone && !hasInitialPlace
      then { st1 with position := c } else st1
    (st2, some c)
  | .failure msg =>
    ({ st0 with
        locationError := some ("Location error: " ++ msg ++ ". Please enable location services."),
        isLoadingLocation := false,
        userLocation := some defaultLocation,
        position := defaultLocation },
      some defaultLocation)
  | .unsupported =>
    ({ st0 with
        locationError := some "Geolocation is not supported by this browser",
        isLoadingLocation := false,
        userLocation := some defaultLocation,
        position := defaultLocation },
      some defaultLocation)

/-- One candidate route of an OSRM response: full geometry, duration in
seconds, distance in meters. -/
structure OsrmRoute where
  geometry : List Pt
  duration : ℝ
  distance : ℝ

/-- Outcome of the OSRM directions request: `failure` is a thrown fetch or
parse error; `success` carries the response `code` and candidate list (an
absent `routes` field is the empty list). -/
inductive RoutingResponse where
  | failure
  | success (code : String) (routes : List OsrmRoute)

/-- The route built by `simulateRoute` for a user location and destination:
the two-point line is measured with turf, `max 5 ⌊d / 0.5⌋` steps are derived
(one point every 500 m, at least 5) and the loop `for i = 0..steps` samples
`steps + 1` points inclusive of both line ends; duration is estimated at
3 minutes per km. -/
noncomputable def simRoute (u : Coord) (s : SelectedLocation) : Route :=
  let startPoint : Pt := (u.lon, u.lat)
  let endPoint : Pt := (s.lon, s.lat)
  let distance := turfLengthList [startPoint, endPoint]
  let steps : ℤ := max 5 ⌊distance / 0.5⌋
  let coordinates := (List.range (steps.toNat + 1)).map fun (i : ℕ) =>
    turfAlongTwo startPoint endPoint (distance * ((i : ℝ) / (steps : ℝ)))
  { coordinates := coordinates,
    duration := round (distance * 3),
    distance := roundTo1 distance,
    steps := [{ instruction := "Head to " ++ firstSegment s.display_name,
                distance := round (distance * 1000) }] }

/-- The function `simulateRoute`: straight-line fallback synthesis; a no-op unless both the
user location and the destination are present. -/
noncomputable def simulateRoute (st : MapState) : MapState :=
  match st.userLocation, st.selectedLocation with
  | some u, some s =>
    { st with route := some (simRoute u s), achievement := some routePlanner }
  | _, _ => st

/-- The function `handleGetDirections`: requests a route from OSRM. Only a *thrown* failure
reaches the catch block and falls back to `simulateRoute`; a parsed response
failing the `code === 'Ok' && routes[0]` guard leaves the state untouched. -/
noncomputable def handleGetDirections (st : MapState) (resp : RoutingResponse) : MapState :=
  match st.userLocation, st.selectedLocation with
  | some _, some _ =>
    match resp with
    | .failure => simulateRoute st
    | .success code routes =>
      if code = "Ok" then
        match routes with
        | [] => st
        | r :: _ =>
          { st with
            route := some
              { coordinates := r.geometry,
                duration := round (r.duration / 60),
                distance := roundTo1 (r.distance / 1000),
                steps := [{ instruction := "Head to your destination",
                            distance := round r.distance }] },
            achievement := some routePlanner }
      else st
  | _, _ => st

/-- The function `handleLocationClick`: map-click destination selection. -/
def handleLocationClick (st : MapState) (loc : SelectedLocation) : MapState :=
  { st with
    selectedLocation := some loc,
    position := ⟨loc.lat, loc.lon⟩,
    route := none }

/-- The function `handleLocationSelect`: search-result destination selection. -/
def handleLocationSelect (st : MapState) (loc : SelectedLocation) : MapState :=
  { st with
    selectedLocation := some loc,
    position := ⟨loc.lat, loc.lon⟩,
    route := none }

/-! ## Geometry lemmas -/

/-- On the equator the shared Haversine kernel degenerates to an exact arc:
`atan2 (sin θ) (cos θ) = θ` for `θ` strictly inside `(0, π/2)`. -/
theorem atan2_sin_cos {θ : ℝ} (h1 : 0 < θ) (h2 : θ < π / 2) :
    atan2 (Real.sin θ) (Real.cos θ) = θ := by
  have hc : 0 < Real.cos θ := by
    apply Real.cos_pos_of_mem_Ioo
    constructor
    · linarith [Real.pi_pos]
    · exact h2
  unfold atan2
  rw [if_pos hc, ← Real.tan_eq_sin_div_cos]
  exact Real.arctan_tan (by linarith [Real.pi_pos]) h2

theorem sqrt_sin_sq {θ : ℝ} (h1 : 0 ≤ θ) (h2 : θ ≤ π) :
    Real.sqrt (Real.sin θ * Real.sin θ) = Real.sin θ :=
  Real.sqrt_mul_self (Real.sin_nonneg_of_nonneg_of_le_pi h1 h2)

theorem sqrt_one_sub_sin_sq {θ : ℝ} (h1 : -(π / 2) ≤ θ) (h2 : θ ≤ π / 2) :
    Real.sqrt (1 - Real.sin θ * Real.sin θ) = Real.cos θ := by
  have h : 1 - Real.sin θ * Real.sin θ = Real.cos θ * Real.cos θ := by
    have := Real.sin_sq_add_cos_sq θ
    nlinarith [this]
  rw [h]
  exact Real.sqrt_mul_self (Real.cos_nonneg_of_mem_Icc ⟨h1, h2⟩)

/-- The value of `calculateDistance` between two equatorial points `(0, 0)` and `(0, lam)`
is exactly `6371 * (lam * π / 180)` for `0 < lam < 180`. -/
theorem calculateDistance_equator {lam : ℝ} (h1 : 0 < lam) (h2 : lam < 180) :
    calculateDistance 0 0 0 lam = 6371 * (lam * π / 180) := by
  have hθ1 : 0 < lam * π / 180 / 2 := by positivity
  have hθ2 : lam * π / 180 / 2 < π / 2 := by nlinarith [Real.pi_pos]
  unfold calculateDistance
  simp only [sub_zero, zero_mul, zero_div, Real.sin_zero, Real.cos_zero,
    mul_zero, zero_add, one_mul, mul_one]
  rw [sqrt_sin_sq (le_of_lt hθ1) (by linarith [Real.pi_pos]),
    sqrt_one_sub_sin_sq (by linarith) (le_of_lt hθ2),
    atan2_sin_cos hθ1 hθ2]
  ring

/-- The value of `turfDistance` between two equatorial points `(0, 0)` and `(lam, 0)`
is exactly `6371.0088 * (lam * π / 180)` for `0 < lam < 180`. -/
theorem turfDistance_equator {lam : ℝ} (h1 : 0 < lam) (h2 : lam < 180) :
    turfDistance ((0 : ℝ), (0 : ℝ)) (lam, 0) = 6371.0088 * (lam * π / 180) := by
  have hθ1 : 0 < lam * π / 180 / 2 := by positivity
  have hθ2 : lam * π / 180 / 2 < π / 2 := by nlinarith [Real.pi_pos]
  unfold turfDistance turfEarthRadiusKm
  simp only [sub_zero, zero_mul, zero_div, Real.sin_zero, Real.cos_zero,
    mul_zero, zero_add, one_mul, mul_one, zero_sub, neg_zero, ne_eq,
    OfNat.ofNat_ne_zero, not_false_eq_true, zero_pow]
  rw [sq, sqrt_sin_sq (le_of_lt hθ1) (by linarith [Real.pi_pos]),
    sqrt_one_sub_sin_sq (by linarith) (le_of_lt hθ2),
    atan2_sin_cos hθ1 hθ2]
  ring

theorem turfLengthList_pair (A B : Pt) : turfLengthList [A, B] = turfDistance A B := by
  simp [turfLengthList]

theorem mapWithIndex_length (f : ℕ → α → β) :
    ∀ (i : ℕ) (l : List α), (mapWithIndex f i l).length = l.length := by
  intro i l
  induction l generalizing i with
  | nil => rfl
  | cons a l ih => simp [mapWithIndex, ih]

/-! ## Concrete fixtures -/

/-- A destination selection (Oakland) used for concrete evaluations. -/
def selOakland : SelectedLocation :=
  { place_id := "1", display_name := "Oakland, California", lat := 37.8044, lon := -122.2712 }

/-- A state with both endpoints known and no route. -/
def stReady : MapState :=
  { position := ⟨37.7749, -122.4194⟩,
    selectedLocation := some selOakland,
    route := none,
    transportMode := "driving-car",
    userLocation := some ⟨37.7749, -122.4194⟩,
    recommendations := [],
    showRecommendations := false,
    achievement := none,
    locationError := none,
    isLoadingLocation := false }

/-- A state with no user location. -/
def stNoOrigin : MapState :=
  { position := ⟨0, 0⟩,
    selectedLocation := some selOakland,
    route := none,
    transportMode := "driving-car",
    userLocation := none,
    recommendations := [],
    showRecommendations := false,
    achievement := none,
    locationError := none,
    isLoadingLocation := false }

/-! ## C9: destination selection clears the route -/

/-- C9: after every destination selection — map click (`handleLocationClick`)
or search-result pick (`handleLocationSelect`) — the current route is absent:
selection clears any previously resolved route immediately. -/
theorem selection_clears_route (st : MapState) (loc : SelectedLocation) :
    (handleLocationClick st loc).route = none ∧ (handleLocationSelect st loc).route = none :=
  ⟨rfl, rfl⟩

/-! ## C10: directions are a no-op without both endpoints -/

/-- C10: if either the user location or the selected destination is absent,
both `handleGetDirections` (for every response outcome) and `simulateRoute`
return immediately and leave the entire state unchanged. -/
theorem directions_noop_without_endpoints (st : MapState) (resp : RoutingResponse)
    (h : st.userLocation = none ∨ st.selectedLocation = none) :
    handleGetDirections st resp = st ∧ simulateRoute st = st := by
  have hsim : simulateRoute st = st := by
    unfold simulateRoute
    rcases h with h | h
    · rw [h]
    · cases hu : st.userLocation
      · rfl
      · rw [h]
  refine ⟨?_, hsim⟩
  unfold handleGetDirections
  rcases h with h | h
  · rw [h]
  · cases hu : st.userLocation
    · rfl
    · rw [h]

/-- Witness for C10 at a concrete state with no user location. -/
theorem directions_noop_without_endpoints_witness :
    (stNoOrigin.userLocation = none ∨ stNoOrigin.selectedLocation = none) ∧
    (handleGetDirections stNoOrigin .failure = stNoOrigin ∧ simulateRoute stNoOrigin = stNoOrigin) :=
  ⟨Or.inl rfl, directions_noop_without_endpoints stNoOrigin .failure (Or.inl rfl)⟩

/-! ## C8: geolocation failure falls back and still triggers discovery -/

/-- C8: when geolocation acquisition fails (error callback or unsupported
browser), the user location becomes the fixed fallback coordinate
(37.7749, -122.4194), an error string naming the failure is set, and POI
discovery is triggered for that fallback coordinate. -/
theorem geolocation_failure_recovers (st : MapState) (hip : Bool) (msg : String) :
    ((getUserLocation st hip (.failure msg)).1.userLocation = some defaultLocation ∧
      (getUserLocation st hip (.failure msg)).1.locationError =
        some ("Location error: " ++ msg ++ ". Please enable location services.") ∧
      (getUserLocation st hip (.failure msg)).2 = some defaultLocation) ∧
    ((getUserLocation st hip .unsupported).1.userLocation = some defaultLocation ∧
      (getUserLocation st hip .unsupported).1.locationError =
        some "Geolocation is not supported by this browser" ∧
      (getUserLocation st hip .unsupported).2 = some defaultLocation) :=
  ⟨⟨rfl, rfl, rfl⟩, ⟨rfl, rfl, rfl⟩⟩

/-! ## C1: routing fallback fires only on a thrown failure -/

/-- C1 counterexample: with both endpoints known, a parsed OSRM response with
code "Ok" but no route triggers no straight-line fallback — the state is
returned unchanged and no route is produced, contradicting the claim that a
route value is always produced. -/
theorem routing_fallback_counterexample :
    handleGetDirections stReady (.success "Ok" []) = stReady ∧ stReady.route = none :=
  ⟨rfl, rfl⟩

/-- C1 amended: with both endpoints known, a *thrown* routing failure falls
back to straight-line synthesis (which always yields a route); a parsed
response failing the `code = "Ok"`-with-a-route guard leaves the state
unchanged and produces no route; a passing response yields the service route. -/
theorem routing_fallback_amended (st : MapState)
    (hu : st.userLocation.isSome = true) (hs : st.selectedLocation.isSome = true) :
    (handleGetDirections st .failure = simulateRoute st ∧
      (simulateRoute st).route.isSome = true) ∧
    (∀ code routes, (code = "Ok" → routes = []) →
      handleGetDirections st (.success code routes) = st) ∧
    (∀ r rest, (handleGetDirections st (.success "Ok" (r :: rest))).route.isSome = true) := by
  obtain ⟨u, hu⟩ := Option.isSome_iff_exists.mp hu
  obtain ⟨s, hs⟩ := Option.isSome_iff_exists.mp hs
  refine ⟨⟨?_, ?_⟩, ?_, ?_⟩
  · unfold handleGetDirections
    rw [hu, hs]
  · unfold simulateRoute
    rw [hu, hs]
    rfl
  · intro code routes h
    unfold handleGetDirections
    rw [hu, hs]
    by_cases hc : code = "Ok"
    · subst hc
      rw [h rfl]
      simp
    · simp [hc]
  · intro r rest
    unfold handleGetDirections
    rw [hu, hs]
    simp

/-- Witness for the amended C1 at a concrete ready state. -/
theorem routing_fallback_amended_witness :
    (stReady.userLocation.isSome = true ∧ stReady.selectedLocation.isSome = true) ∧
    ((handleGetDirections stReady .failure = simulateRoute stReady ∧
        (simulateRoute stReady).route.isSome = true) ∧
      (∀ code routes, (code = "Ok" → routes = []) →
        handleGetDirections stReady (.success code routes) = stReady) ∧
      (∀ r rest, (handleGetDirections stReady (.success "Ok" (r :: rest))).route.isSome = true)) :=
  ⟨⟨rfl, rfl⟩, routing_fallback_amended stReady rfl rfl⟩

/-! ## C4: tier-3 synthetic discovery -/

/-- C4: for every origin, tier-3 synthesis returns exactly 5 points of
interest, named exactly by the fixed ordered list, each carrying a distance in
[0.5, 5] km and placed by geodesic destination projection at that distance;
and the full cascade with two empty tiers is exactly this (never-failing)
synthesis, hence non-empty. -/
theorem mock_places_spec (lat lon : ℝ) (rand : ℕ → ℝ)
    (hr : ∀ n, 0 ≤ rand n ∧ rand n < 1) :
    (createMockPlaces lat lon rand).length = 5 ∧
    (createMockPlaces lat lon rand).map Place.name =
      ["Central Park", "Museum of Art", "Historic Tower", "Botanical Garden", "City Square"] ∧
    (∀ p ∈ createMockPlaces lat lon rand,
      (0.5 ≤ p.distance ∧ p.distance ≤ 5) ∧
      ∃ b, p.location = ⟨(turfDestination (lon, lat) p.distance b).2,
        (turfDestination (lon, lat) p.distance b).1⟩) ∧
    fetchNearbyPlaces lat lon (.ok []) (.ok []) rand = createMockPlaces lat lon rand := by
  refine ⟨by simp [createMockPlaces], rfl, ?_, rfl⟩
  intro p hp
  simp only [createMockPlaces, List.mem_map, List.mem_range] at hp
  obtain ⟨i, hi, rfl⟩ := hp
  obtain ⟨h0, h1⟩ := hr (5 * i)
  exact ⟨⟨by nlinarith, by nlinarith⟩, ⟨rand (5 * i + 1) * 360, rfl⟩⟩

/-- Witness for C4 with the constant-zero random stream at the origin. -/
theorem mock_places_spec_witness :
    (∀ n : ℕ, 0 ≤ (fun _ : ℕ => (0 : ℝ)) n ∧ (fun _ : ℕ => (0 : ℝ)) n < 1) ∧
    ((createMockPlaces 0 0 fun _ => 0).length = 5 ∧
      (createMockPlaces 0 0 fun _ => 0).map Place.name =
        ["Central Park", "Museum of Art", "Historic Tower", "Botanical Garden", "City Square"] ∧
      (∀ p ∈ createMockPlaces 0 0 fun _ => 0,
        (0.5 ≤ p.distance ∧ p.distance ≤ 5) ∧
        ∃ b, p.location = ⟨(turfDestination ((0 : ℝ), (0 : ℝ)) p.distance b).2,
          (turfDestination ((0 : ℝ), (0 : ℝ)) p.distance b).1⟩) ∧
      fetchNearbyPlaces 0 0 (.ok []) (.ok []) (fun _ => 0) =
        createMockPlaces 0 0 fun _ => 0) :=
  ⟨fun _ => ⟨le_refl 0, by norm_num⟩,
    mock_places_spec 0 0 (fun _ => 0) (fun _ => ⟨le_refl 0, by norm_num⟩)⟩

/-! ## C5: sortedness of discovery results -/

/-- C5 counterexample: a discovery invocation in which both remote tiers
succeed with zero records ends in tier-3 synthesis, and with a random stream
whose first draw is large the resulting sequence is *not* sorted by distance. -/
theorem discovery_sorted_counterexample :
    fetchNearbyPlaces 0 0 (.ok []) (.ok [])
        (fun n => if n = 0 then (0.9 : ℝ) else 0) =
      createMockPlaces 0 0 (fun n => if n = 0 then (0.9 : ℝ) else 0) ∧
    ¬ List.Sorted Place.leDist
        (createMockPlaces 0 0 (fun n => if n = 0 then (0.9 : ℝ) else 0)) := by
  refine ⟨rfl, ?_⟩
  intro hsorted
  have h01 : Place.leDist
      ((createMockPlaces 0 0 (fun n => if n = 0 then (0.9 : ℝ) else 0)).get
        ⟨0, by simp [createMockPlaces]⟩)
      ((createMockPlaces 0 0 (fun n => if n = 0 then (0.9 : ℝ) else 0)).get
        ⟨1, by simp [createMockPlaces]⟩) := by
    apply List.Sorted.rel_get_of_lt hsorted
    simp
  have : (0.5 + (0.9 : ℝ) * 4.5) ≤ 0.5 + 0 * 4.5 := h01
  norm_num at this

/-- C5 amended: the tier-1 (Overpass) and tier-2 (Nominatim) pipelines sort
their results non-decreasingly by distance from the query origin; the tier-3
synthetic places are emitted in fixed name order, not sorted by distance. -/
theorem discovery_sorted_amended :
    (∀ (lat lon : ℝ) (elems : List OsmElement) (rand : ℕ → ℝ),
      List.Sorted Place.leDist (processOverpass lat lon elems rand)) ∧
    (∀ (lat lon : ℝ) (recs : List NominatimRecord) (rand : ℕ → ℝ),
      List.Sorted Place.leDist (processNominatim lat lon recs rand)) :=
  ⟨fun _ _ _ _ => List.sorted_insertionSort Place.leDist _,
    fun _ _ _ _ => List.sorted_insertionSort Place.leDist _⟩

/-! ## C6: the tier-1 retention filter -/

/-- The retention predicate as the claim words it: a name tag, or a
recognizable category tag among the queried categories (tourism,
restaurant/cafe amenity, historic, park). Stated from the spec, for
comparison with the source's `keepElement`. -/
def claimRetains (e : OsmElement) : Bool :=
  match e.tags with
  | none => false
  | some t => truthy t.name || truthy t.tourism ||
      (t.amenity == some "restaurant") || (t.amenity == some "cafe") ||
      truthy t.historic || (t.leisure == some "park")

/-- An unnamed park: a way tagged only `leisure=park`, as returned by the
`way["leisure"="park"]` clause of the Overpass query. -/
def parkElement : OsmElement :=
  { id := 42,
    tags := some { leisure := some "park" },
    center := some ⟨1, 1⟩ }

/-- C6 counterexample: the unnamed park is retained under the claim's
predicate but dropped by the code (its filter never consults `leisure`), so
tier-1 processing of it alone yields no places. -/
theorem overpass_filter_counterexample :
    claimRetains parkElement = true ∧
    keepElement parkElement = false ∧
    processOverpass 0 0 [parkElement] (fun _ => 0) = [] :=
  ⟨rfl, rfl, rfl⟩

/-- C6 amended: a fetched element is retained iff it has a tags object with a
truthy `name`, `tourism`, `historic`, or `amenity` value (so unnamed
`leisure=park` features are dropped, and any truthy amenity value passes),
and at most 10 elements survive into the result. -/
theorem overpass_filter_amended :
    (∀ (elems : List OsmElement) (e : OsmElement),
      e ∈ elems.filter keepElement ↔
        e ∈ elems ∧ ∃ t, e.tags = some t ∧
          (truthy t.name ∨ truthy t.tourism ∨ truthy t.historic ∨ truthy t.amenity)) ∧
    (∀ (lat lon : ℝ) (elems : List OsmElement) (rand : ℕ → ℝ),
      (processOverpass lat lon elems rand).length ≤ 10) := by
  constructor
  · intro elems e
    have hchar : keepElement e = true ↔
        ∃ t, e.tags = some t ∧
          (truthy t.name ∨ truthy t.tourism ∨ truthy t.historic ∨ truthy t.amenity) := by
      cases h : e.tags with
      | none => simp [keepElement, h]
      | some t => simp [keepElement, h, or_assoc]
    rw [List.mem_filter, hchar]
  · intro lat lon elems rand
    unfold processOverpass sortByDistance
    rw [(List.perm_insertionSort Place.leDist _).length_eq, mapWithIndex_length,
      List.length_take]
    exact min_le_left _ _

/-! ## C7: the tier-2 transform -/

theorem mem_mapWithIndex {f : ℕ → α → β} {b : β} :
    ∀ {i : ℕ} {l : List α}, b ∈ mapWithIndex f i l → ∃ j a, a ∈ l ∧ b = f j a := by
  intro i l
  induction l generalizing i with
  | nil => simp [mapWithIndex]
  | cons x xs ih =>
    intro h
    rw [mapWithIndex, List.mem_cons] at h
    rcases h with h | h
    · exact ⟨i, x, List.mem_cons_self x xs, h⟩
    · obtain ⟨j, a, ha, hb⟩ := ih h
      exact ⟨j, a, List.mem_cons_of_mem x ha, hb⟩

/-- A Nominatim record whose `type` field is present but empty. -/
def recEmptyType : NominatimRecord :=
  { place_id := 7, display_name := "Eiffel Tower, Paris", lat := 1, lon := 2, type := some "" }

/-- C7 counterexample: for a record whose `type` field is present but empty,
the claim demands the category label `""` (the type's value), but the code's
`place.type || 'Tourist Attraction'` treats the empty string as falsy and
substitutes the default. -/
theorem nominatim_transform_counterexample :
    (processNominatim 0 0 [recEmptyType] (fun _ => 0)).map Place.description =
      ["Tourist Attraction"] ∧
    recEmptyType.type = some "" ∧ ("Tourist Attraction" : String) ≠ "" :=
  ⟨rfl, rfl, by decide⟩

/-- C7 amended: every tier-2 place takes its display name from the first
comma-delimited segment of some input record's display name, and its category
label from that record's `type` field, defaulting to "Tourist Attraction"
when the type field is absent *or empty*. -/
theorem nominatim_transform_amended (lat lon : ℝ) (recs : List NominatimRecord)
    (rand : ℕ → ℝ) :
    ∀ p ∈ processNominatim lat lon recs rand, ∃ rec ∈ recs,
      p.name = firstSegment rec.display_name ∧
      p.description = (match rec.type with
        | some s => if s = "" then "Tourist Attraction" else s
        | none => "Tourist Attraction") := by
  intro p hp
  have hp2 : p ∈ mapWithIndex (nominatimPlace lat lon rand) 0 recs :=
    (List.perm_insertionSort Place.leDist _).subset hp
  obtain ⟨j, rec, hrec, rfl⟩ := mem_mapWithIndex hp2
  refine ⟨rec, hrec, rfl, ?_⟩
  cases h : rec.type with
  | none => simp [nominatimPlace, jsOrStr, h]
  | some s => simp [nominatimPlace, jsOrStr, h]

/-- A Nominatim record with a nonempty `type` field. -/
def recMuseum : NominatimRecord :=
  { place_id := 3, display_name := "Louvre, Paris", lat := 1, lon := 1, type := some "museum" }

/-- Witness for the amended C7 at a concrete single-record response. -/
theorem nominatim_transform_amended_witness :
    ∃ rec ∈ [recMuseum],
      (nominatimPlace 0 0 (fun _ => 0) 0 recMuseum).name = firstSegment rec.display_name ∧
      (nominatimPlace 0 0 (fun _ => 0) 0 recMuseum).description = (match rec.type with
        | some s => if s = "" then "Tourist Attraction" else s
        | none => "Tourist Attraction") :=
  nominatim_transform_amended 0 0 [recMuseum] (fun _ => 0) _
    (show nominatimPlace 0 0 (fun _ => 0) 0 recMuseum ∈ [nominatimPlace 0 0 (fun _ => 0) 0 recMuseum]
      from List.mem_singleton_self _)

/-! ## C3: the fallback path -/

theorem simRoute_length (u : Coord) (s : SelectedLocation) :
    (simRoute u s).coordinates.length =
      (max 5 ⌊turfLengthList [(u.lon, u.lat), (s.lon, s.lat)] / 0.5⌋).toNat + 1 := by
  simp [simRoute]

theorem simRoute_head (u : Coord) (s : SelectedLocation) :
    (simRoute u s).coordinates.head? = some (u.lon, u.lat) := by
  unfold simRoute
  dsimp only
  rw [List.range_succ_eq_map, List.map_cons, List.head?_cons]
  simp [turfAlongTwo]

theorem simRoute_last (u : Coord) (s : SelectedLocation)
    (hd : 0 < turfLengthList [(u.lon, u.lat), (s.lon, s.lat)]) :
    (simRoute u s).coordinates.getLast? = some (s.lon, s.lat) := by
  have hL : turfDistance ((u.lon, u.lat) : Pt) (s.lon, s.lat) =
      turfLengthList [(u.lon, u.lat), (s.lon, s.lat)] := turfLengthList_pair _ _ |>.symm
  unfold simRoute
  dsimp only
  generalize hst : (max 5 ⌊turfLengthList [(u.lon, u.lat), (s.lon, s.lat)] / 0.5⌋ : ℤ) = steps
  have h5 : (5 : ℤ) ≤ steps := hst ▸ le_max_left _ _
  rw [List.range_succ, List.map_append, List.map_cons, List.map_nil, List.getLast?_concat]
  have hcastR : ((steps.toNat : ℝ)) = (steps : ℝ) := by
    have := Int.toNat_of_nonneg (by linarith : (0 : ℤ) ≤ steps)
    exact_mod_cast congrArg (fun z : ℤ => (z : ℝ)) this
  have hsposR : (0 : ℝ) < (steps : ℝ) := by exact_mod_cast (by linarith : (0 : ℤ) < steps)
  congr 1
  rw [hcastR, div_self (ne_of_gt hsposR), mul_one]
  unfold turfAlongTwo
  dsimp only
  rw [if_neg (ne_of_gt hd), if_neg (asymm hd), if_pos (le_of_eq hL)]

/-- C3 amended: the fallback path consists of `steps + 1` (not `steps`) evenly
spaced sample points, where `steps = max 5 ⌊d / 0.5⌋` and `d` is the turf
length of the straight line; the path always has at least 6 ≥ 2 points, and
when the line length is positive the origin sits at index 0 and the
destination at the last index. -/
theorem fallback_path_amended (st : MapState) (u : Coord) (s : SelectedLocation)
    (hu : st.userLocation = some u) (hs : st.selectedLocation = some s)
    (hd : 0 < turfLengthList [(u.lon, u.lat), (s.lon, s.lat)]) :
    ∃ r, (simulateRoute st).route = some r ∧
      r.coordinates.length =
        (max 5 ⌊turfLengthList [(u.lon, u.lat), (s.lon, s.lat)] / 0.5⌋).toNat + 1 ∧
      2 ≤ r.coordinates.length ∧
      r.coordinates.head? = some (u.lon, u.lat) ∧
      r.coordinates.getLast? = some (s.lon, s.lat) := by
  refine ⟨simRoute u s, by unfold simulateRoute; rw [hu, hs], simRoute_length u s, ?_,
    simRoute_head u s, simRoute_last u s hd⟩
  rw [simRoute_length]
  have h5 : (5 : ℤ) ≤ max 5 ⌊turfLengthList [(u.lon, u.lat), (s.lon, s.lat)] / 0.5⌋ :=
    le_max_left _ _
  omega

/-- A destination 0.001 degrees of longitude east along the equator. -/
def selNear : SelectedLocation :=
  { place_id := "2", display_name := "Near Point", lat := 0, lon := 0.001 }

/-- A state sitting on the equator at the origin with `selNear` selected. -/
def stEquator : MapState :=
  { position := ⟨0, 0⟩,
    selectedLocation := some selNear,
    route := none,
    transportMode := "driving-car",
    userLocation := some ⟨0, 0⟩,
    recommendations := [],
    showRecommendations := false,
    achievement := none,
    locationError := none,
    isLoadingLocation := false }

theorem stEquator_length_pos :
    0 < turfLengthList [((Coord.mk 0 0).lon, (Coord.mk 0 0).lat), (selNear.lon, selNear.lat)] := by
  show 0 < turfLengthList [((0 : ℝ), (0 : ℝ)), ((0.001 : ℝ), (0 : ℝ))]
  rw [turfLengthList_pair,
    turfDistance_equator (by norm_num) (by norm_num)]
  positivity

/-- Witness for the amended C3 on the concrete equatorial state. -/
theorem fallback_path_amended_witness :
    (stEquator.userLocation = some (Coord.mk 0 0) ∧
      stEquator.selectedLocation = some selNear ∧
      0 < turfLengthList [((Coord.mk 0 0).lon, (Coord.mk 0 0).lat), (selNear.lon, selNear.lat)]) ∧
    (∃ r, (simulateRoute stEquator).route = some r ∧
      r.coordinates.length =
        (max 5 ⌊turfLengthList [((Coord.mk 0 0).lon, (Coord.mk 0 0).lat),
          (selNear.lon, selNear.lat)] / 0.5⌋).toNat + 1 ∧
      2 ≤ r.coordinates.length ∧
      r.coordinates.head? = some ((Coord.mk 0 0).lon, (Coord.mk 0 0).lat) ∧
      r.coordinates.getLast? = some (selNear.lon, selNear.lat)) :=
  ⟨⟨rfl, rfl, stEquator_length_pos⟩,
    fallback_path_amended stEquator (Coord.mk 0 0) selNear rfl rfl stEquator_length_pos⟩

theorem stEquator_floor_zero :
    ⌊turfLengthList [((Coord.mk 0 0).lon, (Coord.mk 0 0).lat),
      (selNear.lon, selNear.lat)] / 0.5⌋ = (0 : ℤ) := by
  have hdval : turfLengthList [((Coord.mk 0 0).lon, (Coord.mk 0 0).lat),
      (selNear.lon, selNear.lat)] = 6371.0088 * (0.001 * π / 180) := by
    show turfLengthList [((0 : ℝ), (0 : ℝ)), ((0.001 : ℝ), (0 : ℝ))] = _
    rw [turfLengthList_pair]
    exact turfDistance_equator (by norm_num) (by norm_num)
  rw [hdval, Int.floor_eq_zero_iff]
  constructor
  · positivity
  · rw [div_lt_iff₀ (by norm_num : (0 : ℝ) < 0.5)]
    nlinarith [Real.pi_lt_d4]

/-- C3 counterexample: on the concrete equatorial state the derived step count
is `max 5 ⌊d / 0.5⌋ = 5`, but the synthesized path has 6 points — the
inclusive sampling loop emits one more point than the claim's count. -/
theorem fallback_path_counterexample :
    (simulateRoute stEquator).route.map (fun r => r.coordinates.length) = some 6 ∧
    (max 5 ⌊turfLengthList [((Coord.mk 0 0).lon, (Coord.mk 0 0).lat),
      (selNear.lon, selNear.lat)] / 0.5⌋).toNat = 5 := by
  constructor
  · have h1 : (simulateRoute stEquator).route.map (fun r => r.coordinates.length) =
        some ((simRoute (Coord.mk 0 0) selNear).coordinates.length) := rfl
    rw [h1, simRoute_length, stEquator_floor_zero]
    rfl
  · rw [stEquator_floor_zero]
    rfl

/-! ## C2: the fallback duration -/

/-- C2 amended: the fallback duration is `round (3 * d)` minutes where `d` is
the straight-line length measured by the geometry library — a Haversine
distance with turf's Earth radius of 6371.0088 km, not the 6371 km of
`calculateDistance`. -/
theorem fallback_duration_amended (st : MapState) (u : Coord) (s : SelectedLocation)
    (hu : st.userLocation = some u) (hs : st.selectedLocation = some s) :
    ∃ r, (simulateRoute st).route = some r ∧
      r.duration = round (3 * turfLengthList [(u.lon, u.lat), (s.lon, s.lat)]) := by
  refine ⟨simRoute u s, by unfold simulateRoute; rw [hu, hs], ?_⟩
  show round (turfLengthList [(u.lon, u.lat), (s.lon, s.lat)] * 3) = _
  rw [mul_comm]

/-- Witness for the amended C2 on the concrete ready state. -/
theorem fallback_duration_amended_witness :
    (stReady.userLocation = some (Coord.mk 37.7749 (-122.4194)) ∧
      stReady.selectedLocation = some selOakland) ∧
    (∃ r, (simulateRoute stReady).route = some r ∧
      r.duration = round (3 * turfLengthList
        [((Coord.mk 37.7749 (-122.4194)).lon, (Coord.mk 37.7749 (-122.4194)).lat),
          (selOakland.lon, selOakland.lat)])) :=
  ⟨⟨rfl, rfl⟩,
    fallback_duration_amended stReady (Coord.mk 37.7749 (-122.4194)) selOakland rfl rfl⟩

/-- A destination 179.47 degrees of longitude east along the equator. -/
def selFar : SelectedLocation :=
  { place_id := "9", display_name := "Antimeridian Point", lat := 0, lon := 179.47 }

/-- A state at the equatorial origin with `selFar` selected. -/
def stFar : MapState :=
  { position := ⟨0, 0⟩,
    selectedLocation := some selFar,
    route := none,
    transportMode := "driving-car",
    userLocation := some ⟨0, 0⟩,
    recommendations := [],
    showRecommendations := false,
    achievement := none,
    locationError := none,
    isLoadingLocation := false }

/-- C2 counterexample: for the equatorial pair (0,0) → (0, 179.47) the
fallback duration is 59869 minutes (turf's Earth radius 6371.0088 km) while
`round (3 * distanceKm)` with the section-4.2 radius of 6371 km is 59868 —
the claimed equality fails. -/
theorem fallback_duration_counterexample :
    (simulateRoute stFar).route.map Route.duration = some 59869 ∧
    round (3 * calculateDistance 0 0 0 179.47) = 59868 := by
  have hdval : turfLengthList [((Coord.mk 0 0).lon, (Coord.mk 0 0).lat),
      (selFar.lon, selFar.lat)] = 6371.0088 * (179.47 * π / 180) := by
    show turfLengthList [((0 : ℝ), (0 : ℝ)), ((179.47 : ℝ), (0 : ℝ))] = _
    rw [turfLengthList_pair]
    exact turfDistance_equator (by norm_num) (by norm_num)
  constructor
  · have h1 : (simulateRoute stFar).route.map Route.duration =
        some ((simRoute (Coord.mk 0 0) selFar).duration) := rfl
    have h2 : (simRoute (Coord.mk 0 0) selFar).duration =
        round (turfLengthList [((Coord.mk 0 0).lon, (Coord.mk 0 0).lat),
          (selFar.lon, selFar.lat)] * 3) := rfl
    rw [h1, h2, hdval]
    congr 1
    rw [round_eq, Int.floor_eq_iff]
    constructor
    · push_cast
      nlinarith [Real.pi_gt_d20, Real.pi_lt_d20]
    · push_cast
      nlinarith [Real.pi_gt_d20, Real.pi_lt_d20]
  · rw [calculateDistance_equator (by norm_num) (by norm_num), round_eq, Int.floor_eq_iff]
    constructor
    · push_cast
      nlinarith [Real.pi_gt_d20, Real.pi_lt_d20]
    · push_cast
      nlinarith [Real.pi_gt_d20, Real.pi_lt_d20]

end GeoGuide
